import Mathlib

/-!
Shallow embedding of the résumé/ATS scoring and suggestion engine.

Sources:
- `src/unnamed/part_000` : `calculateATSScore`, the five sub-score calculators,
  `extractKeywords`, `generateInsights`.
- `src/utils/aiSuggestions.js` : `generateAISuggestions`,
  `generateRuleBasedSuggestions`, `extractImportantKeywords`.

JavaScript numbers are modelled as `ℚ` (exact rational arithmetic; the decimal
weight literals 0.4, 0.2, 0.15, 0.1 become 2/5, 1/5, 3/20, 1/10).
`Math.round` is modelled as `jsRound` (floor of x + 1/2, which is JS
round-half-up).  External library primitives that the code calls
(the `compromise` noun recognizer and a handful of fixed regular expressions
whose exact match lists the engine consumes) are modelled as an explicit
`Oracle` of functions; every theorem quantifies over all oracle behaviours,
so nothing proved depends on what those externals return.  String logic that
the source implements itself (substring tests via `String.includes` /
literal-alternation regexes, whitespace splitting via `split(/\s+/)`,
whole-word token counting via `\b(...)\b` over plain-letter word lists,
character counting) is implemented concretely below.
-/

namespace AiRes

/-! ## Basic string machinery -/

/-- JS `\s` whitespace class (the set used by `split(/\s+/)` and `trim`). -/
def isJsWs (c : Char) : Bool :=
  c = ' ' || c = '\t' || c = '\n' || c = '\r' || c.val = 0x0B || c.val = 0x0C ||
  c.val = 0xA0 || c.val = 0x1680 || (0x2000 ≤ c.val && c.val ≤ 0x200A) ||
  c.val = 0x2028 || c.val = 0x2029 || c.val = 0x202F || c.val = 0x205F ||
  c.val = 0x3000 || c.val = 0xFEFF

/-- JS regex word character (`\w` / the `\b` boundary class): [A-Za-z0-9_]. -/
def isWordChar (c : Char) : Bool :=
  c.isAlphanum || c = '_'

/-- The decorative glyph set of the regex `/[★☆●○■□▪▫◆◇]/` (part_000 line 177). -/
def isGlyph (c : Char) : Bool :=
  c = '★' || c = '☆' || c = '●' || c = '○' || c = '■' ||
  c = '□' || c = '▪' || c = '▫' || c = '◆' || c = '◇'

/-- Sentence-terminator class of `split(/[.!?]+/)` (part_000 line 151). -/
def isSentenceEnd (c : Char) : Bool :=
  c = '.' || c = '!' || c = '?'

/-- JS `toLowerCase` (ASCII range), implemented over the character list so
that it reduces in the kernel. -/
def toLowerStr (s : String) : String :=
  String.mk (s.data.map Char.toLower)

/-- JS `trim` (strips `\s` from both ends). -/
def trimStr (s : String) : String :=
  String.mk (((s.data.dropWhile (fun c => isJsWs c)).reverse.dropWhile
    (fun c => isJsWs c)).reverse)

/-- String length as the length of the character list. -/
def strLen (s : String) : ℕ :=
  s.data.length

/-- `Array.prototype.join(sep)` / `String.intercalate`. -/
def joinSep (sep : String) : List String → String
  | [] => ""
  | [x] => x
  | x :: y :: rest => x ++ sep ++ joinSep sep (y :: rest)

/-- `isPrefixL pat l` : `pat` is a prefix of `l` (character lists). -/
def isPrefixL : List Char → List Char → Bool
  | [], _ => true
  | _ :: _, [] => false
  | a :: as, b :: bs => a = b && isPrefixL as bs

/-- `hasInfixL pat l` : `pat` occurs contiguously somewhere in `l`. -/
def hasInfixL (pat : List Char) : List Char → Bool
  | [] => pat.isEmpty
  | c :: rest => isPrefixL pat (c :: rest) || hasInfixL pat rest

/-- JS `String.prototype.includes` (exact substring test). -/
def hasSubstrStr (s pat : String) : Bool :=
  hasInfixL pat.toList s.toList

/-- Case-insensitive substring test: a literal-alternative regex with the `i`
flag such as `/experience|work history/i` matched against `s` is
`hasCI s "experience" || hasCI s "work history"` (the literals lower-case). -/
def hasCI (s pat : String) : Bool :=
  hasSubstrStr (toLowerStr s) pat

/-- Split a character list at every character satisfying `p` (each separator
character produces a boundary; pieces may be empty). -/
def splitChars (p : Char → Bool) : List Char → List (List Char)
  | [] => [[]]
  | c :: rest =>
    if p c then [] :: splitChars p rest
    else
      match splitChars p rest with
      | [] => [[c]]
      | piece :: rs => (c :: piece) :: rs

/-- Drop empty strings from a list except for its last element (used to merge
runs of whitespace separators into a single separator, preserving the
leading/trailing empty pieces that JS `split(/\s+/)` keeps). -/
def dropEmptiesKeepLast : List String → List String
  | [] => []
  | [x] => [x]
  | x :: y :: rest =>
    if x = "" then dropEmptiesKeepLast (y :: rest)
    else x :: dropEmptiesKeepLast (y :: rest)

/-- JS `s.split(/\s+/)`: split on maximal whitespace runs; a leading (resp.
trailing) whitespace run contributes one leading (resp. trailing) empty piece;
`"".split(/\s+/)` is `[""]`.  (The `[]` branch is unreachable: `splitChars`
never returns an empty list.) -/
def jsSplitWs (s : String) : List String :=
  match (splitChars isJsWs s.toList).map (fun l => String.mk l) with
  | [] => [""]
  | x :: rest => x :: dropEmptiesKeepLast rest

/-- `resumeText.split(/\s+/).length`, the word count used throughout the engine. -/
def jsWsSplitLen (s : String) : ℕ :=
  (jsSplitWs s).length

/-- Maximal runs of word characters of a string, in order (accumulator holds
the current run reversed). -/
def wordRunsAux : List Char → List Char → List String
  | [], cur => if cur.isEmpty then [] else [String.mk cur.reverse]
  | c :: rest, cur =>
    if isWordChar c then wordRunsAux rest (c :: cur)
    else if cur.isEmpty then wordRunsAux rest []
    else String.mk cur.reverse :: wordRunsAux rest []

/-- The word tokens (maximal `\w+` runs) of a string. -/
def wordTokens (s : String) : List String :=
  wordRunsAux s.toList []

/-- Number of matches of a `/\b(t1|t2|...)\b/gi` regex whose alternatives are
plain letter-only words: a match must span an entire maximal word run, so the
count is the number of word tokens whose lower-casing is in the list. -/
def countWholeWordOf (terms : List String) (s : String) : ℕ :=
  (wordTokens s).countP (fun w => terms.contains (toLowerStr w))

/-- First-occurrence deduplication with an accumulator of already-seen
elements; models JS `Set` insertion followed by `Array.from`. -/
def dedupAux : List String → List String → List String
  | [], _ => []
  | x :: xs, seen =>
    if x ∈ seen then dedupAux xs seen else x :: dedupAux xs (x :: seen)

/-- `Array.from(new Set(l))` : deduplicate keeping first occurrences in order. -/
def dedupFirst (l : List String) : List String :=
  dedupAux l []

/-! ## Fixed word lists transcribed from the source -/

/-- The pronoun alternatives of `/\b(i|me|my|mine)\b/gi` (part_000 line 140,
aiSuggestions line 149). -/
def pronounWords : List String := ["i", "me", "my", "mine"]

/-- The 40 action-verb alternatives of the readability regex (part_000 line 161). -/
def readabilityActionVerbs : List String :=
  ["managed", "led", "developed", "created", "implemented", "designed",
   "built", "improved", "achieved", "delivered", "coordinated", "analyzed",
   "optimized", "spearheaded", "executed", "established", "initiated",
   "launched", "streamlined", "enhanced", "resolved", "maintained",
   "supervised", "trained", "mentored", "collaborated", "facilitated",
   "negotiated", "increased", "reduced", "transformed", "automated",
   "integrated", "tested", "debugged", "deployed", "architected",
   "engineered", "programmed", "coded"]

/-- The 16 action-verb alternatives of the suggestion-rule regex
(aiSuggestions line 118). -/
def suggestionActionVerbs : List String :=
  ["managed", "led", "developed", "created", "implemented", "designed",
   "built", "improved", "achieved", "delivered", "coordinated", "analyzed",
   "optimized", "spearheaded", "executed", "established"]

/-- The stop-word alternatives of the noun filter regex
`/\b(with|from|that|this|have|been|were|will|would|could|should)\b/`
(aiSuggestions line 285). -/
def stopWords : List String :=
  ["with", "from", "that", "this", "have", "been", "were", "will",
   "would", "could", "should"]

/-- `word.match(/\b(with|...|should)\b/) !== null`: some whole-word occurrence
of a stop word inside `w` (the source applies it to already-lower-cased words;
the regex has no `i` flag). -/
def containsStopWord (w : String) : Bool :=
  (wordTokens w).any (fun t => stopWords.contains t)

/-! ## External-library oracle

The engine calls two kinds of externals whose behaviour is not in this
repository: the `compromise` NLP noun recognizer and several fixed regular
expressions whose full match lists it consumes (the two large tech-skill
vocabulary alternations, the soft-skill alternation, the date-format pattern,
the quantified-achievement pattern, the e-mail and phone patterns, and the
per-keyword whole-word occurrence count built with `new RegExp`).  These are
modelled as an `Oracle` of pure functions; all theorems hold for every oracle. -/

structure Oracle where
  /-- `compromise(text).nouns()` texts, in document order (part_000 line 92,
  aiSuggestions line 283). -/
  nouns : String → List String
  /-- matches of the part_000 tech-skill vocabulary regex (line 97), applied by
  the source to the lower-cased text. -/
  techMatches : String → List String
  /-- matches of the aiSuggestions expanded tech-skill vocabulary regex
  (line 276), applied to the raw text. -/
  techMatchesAI : String → List String
  /-- matches of the soft-skill vocabulary regex (aiSuggestions line 291). -/
  softMatches : String → List String
  /-- match count of the date-format regex (part_000 line 189). -/
  dateCount : String → ℕ
  /-- match count of the quantified-achievement regex (aiSuggestions line 129). -/
  numbersCount : String → ℕ
  /-- `(text.match(new RegExp("\\b" + escape(keyword) + "\\b", "gi")) || []).length`:
  whole-word occurrences of a keyword in a text (part_000 lines 206-207). -/
  occCount : String → String → ℕ
  /-- the e-mail regex test (aiSuggestions line 184). -/
  hasEmail : String → Bool
  /-- the phone-number regex test (aiSuggestions line 192). -/
  hasPhone : String → Bool

/-! ## Data model -/

/-- `Math.round` for non-negative JS numbers: round half up. -/
def jsRound (q : ℚ) : ℤ := ⌊q + 1/2⌋

/-- The five named sub-scores of a score result (part_000 lines 36-42). -/
structure Breakdown where
  keywordMatch : ℤ
  formatting : ℤ
  readability : ℤ
  «structure» : ℤ
  keywordBalance : ℤ
deriving DecidableEq

/-- The value returned by `calculateATSScore` (part_000 lines 34-43). -/
structure ScoreResult where
  totalScore : ℤ
  breakdown : Breakdown
deriving DecidableEq

/-- The all-zero result returned from the `catch` branch (part_000 lines 46-55). -/
def zeroScoreResult : ScoreResult :=
  { totalScore := 0
    breakdown := { keywordMatch := 0, formatting := 0, readability := 0,
                   «structure» := 0, keywordBalance := 0 } }

/-- A suggestion object (aiSuggestions, e.g. lines 85-89). -/
structure Suggestion where
  category : String
  message : String
  priority : String
deriving DecidableEq

/-! ## part_000: keyword extraction and the five sub-score calculators -/

/-- `extractKeywords` (part_000 lines 85-104): a `Set` receives every
`compromise` noun lower-cased, then every tech-vocabulary match of the
lower-cased text, lower-cased; `Array.from` returns insertion order.  No
length or stop-word filtering is applied. -/
def extractKeywords (o : Oracle) (text : String) : List String :=
  dedupFirst ((o.nouns text).map (fun n => toLowerStr n) ++
              (o.techMatches (toLowerStr text)).map (fun s => toLowerStr s))

/-- `calculateKeywordMatch` (part_000 lines 60-82).  The `TfIdf` object built
on lines 61-63 is never consulted for the returned value and is omitted. -/
def calculateKeywordMatch (o : Oracle) (resumeText jobDescription : String) : ℚ :=
  let jdKeywords := extractKeywords o jobDescription
  let resumeKeywords := extractKeywords o resumeText
  let matchCount := jdKeywords.countP (fun k => decide (k ∈ resumeKeywords))
  let totalKeywords := jdKeywords.length
  let matchPercentage : ℚ :=
    if 0 < totalKeywords then ((matchCount : ℚ) / (totalKeywords : ℚ)) * 100 else 0
  min 100 matchPercentage

/-- `calculateFormattingScore` (part_000 lines 107-133): +20 per detected
section signal (case-insensitive literal alternations), then a word-count
bonus, then `Math.min(100, score)`. -/
def calculateFormattingScore (resumeText : String) : ℚ :=
  let s1 : ℚ := if hasCI resumeText "contact" || hasCI resumeText "email" ||
                   hasCI resumeText "phone" then 20 else 0
  let s2 : ℚ := if hasCI resumeText "summary" || hasCI resumeText "objective" ||
                   hasCI resumeText "profile" then 20 else 0
  let s3 : ℚ := if hasCI resumeText "experience" || hasCI resumeText "work history" ||
                   hasCI resumeText "employment" then 20 else 0
  let s4 : ℚ := if hasCI resumeText "education" || hasCI resumeText "academic" ||
                   hasCI resumeText "degree" then 20 else 0
  let s5 : ℚ := if hasCI resumeText "skills" || hasCI resumeText "technical skills" ||
                   hasCI resumeText "competencies" then 20 else 0
  let wordCount := jsWsSplitLen resumeText
  let bonus : ℚ := if 300 ≤ wordCount ∧ wordCount ≤ 800 then 20
                   else if 200 < wordCount then 10 else 0
  min 100 (s1 + s2 + s3 + s4 + s5 + bonus)

/-- `calculateReadabilityScore` (part_000 lines 136-170): start at 100,
pronoun-ratio penalty, average-sentence-length adjustment, action-verb bonus,
then `Math.max(0, Math.min(100, score))`. -/
def calculateReadabilityScore (resumeText : String) : ℚ :=
  let pronounCount := countWholeWordOf pronounWords resumeText
  let words := jsWsSplitLen resumeText
  let pronounRatio : ℚ := (pronounCount : ℚ) / (words : ℚ)
  let p1 : ℚ := if pronounRatio > 1/20 then 30
                else if pronounRatio > 1/50 then 15 else 0
  let sentences := ((splitChars isSentenceEnd resumeText.toList).filter
                     (fun seg => seg.any (fun c => !(isJsWs c)))).length
  let avgSentenceLength : ℚ := (words : ℚ) / ((max sentences 1 : ℕ) : ℚ)
  let p2 : ℚ := if avgSentenceLength > 25 then 20
                else if avgSentenceLength < 10 then 10 else 0
  let actionVerbs := countWholeWordOf readabilityActionVerbs resumeText
  let b : ℚ := if 5 ≤ actionVerbs then 20 else if 3 ≤ actionVerbs then 10 else 0
  max 0 (min 100 (100 - p1 - p2 + b))

/-- `calculateStructureScore` (part_000 lines 173-196): start at 100, −30 if
any decorative glyph occurs, −20 if more than 10 tab characters, +10 if at
least two date-format matches, then `Math.max(0, Math.min(100, score))`. -/
def calculateStructureScore (o : Oracle) (resumeText : String) : ℚ :=
  let specialChars := resumeText.toList.countP isGlyph
  let d1 : ℚ := if 0 < specialChars then 30 else 0
  let tabs := resumeText.toList.countP (fun c => c = '\t')
  let d2 : ℚ := if 10 < tabs then 20 else 0
  let dateFormats := o.dateCount resumeText
  let b : ℚ := if 2 ≤ dateFormats then 10 else 0
  max 0 (min 100 (100 - d1 - d2 + b))

/-- Total whole-word occurrences in the lower-cased résumé of the extracted
job-description keywords (part_000 lines 199-209). -/
def keywordFrequency (o : Oracle) (resumeText jobDescription : String) : ℕ :=
  ((extractKeywords o jobDescription).map
    (fun k => o.occCount k (toLowerStr resumeText))).sum

/-- `keywordDensity` (part_000 line 212), with the source's division-by-zero
guard on the word count. -/
def keywordDensity (o : Oracle) (resumeText jobDescription : String) : ℚ :=
  let resumeWords := jsWsSplitLen resumeText
  if 0 < resumeWords
  then ((keywordFrequency o resumeText jobDescription : ℚ) / (resumeWords : ℚ)) * 100
  else 0

/-- `calculateBalanceScore` (part_000 lines 199-234): density-band base score
(if/else-if chain in source order), word-count penalty, `Math.max(0, score)`. -/
def calculateBalanceScore (o : Oracle) (resumeText jobDescription : String) : ℚ :=
  let resumeWords := jsWsSplitLen resumeText
  let d := keywordDensity o resumeText jobDescription
  let base : ℚ := if d < 1 then 50
                  else if d > 5 then 40
                  else if 1 ≤ d ∧ d ≤ 3 then 100
                  else 70
  let score : ℚ := if resumeWords < 250 then base - 30
                   else if 1000 < resumeWords then base - 20
                   else base
  max 0 score

/-! ## part_000: aggregator and insights -/

/-- The body of the `try` block of `calculateATSScore` (part_000 lines 26-43):
weighted total over the unrounded sub-scores, rounded then clamped; each
breakdown field independently rounded. -/
def aggregateScores (keywordMatchScore formattingScore readabilityScore
    structureScore balanceScore : ℚ) : ScoreResult :=
  let totalScore := jsRound (keywordMatchScore * (2/5) + formattingScore * (1/5) +
    readabilityScore * (3/20) + structureScore * (3/20) + balanceScore * (1/10))
  { totalScore := min 100 (max 0 totalScore)
    breakdown := { keywordMatch := jsRound keywordMatchScore
                   formatting := jsRound formattingScore
                   readability := jsRound readabilityScore
                   «structure» := jsRound structureScore
                   keywordBalance := jsRound balanceScore } }

/-- `calculateATSScore` (part_000 lines 8-57), the pure path on which no
sub-score computation throws. -/
def calculateATSScore (o : Oracle) (resumeText jobDescription : String) : ScoreResult :=
  aggregateScores
    (calculateKeywordMatch o resumeText jobDescription)
    (calculateFormattingScore resumeText)
    (calculateReadabilityScore resumeText)
    (calculateStructureScore o resumeText)
    (calculateBalanceScore o resumeText jobDescription)

/-- `calculateATSScore` with the try/catch made explicit: each of the five
sub-score computations may instead raise (modelled as `Except Unit ℚ`); the
`catch` branch (part_000 lines 44-56) returns the all-zero result.  The
pure path corresponds to all five being `Except.ok`. -/
def calculateATSScoreE (k f r s b : Except Unit ℚ) : ScoreResult :=
  match k, f, r, s, b with
  | .ok kv, .ok fv, .ok rv, .ok sv, .ok bv => aggregateScores kv fv rv sv bv
  | _, _, _, _, _ => zeroScoreResult

/-- `generateInsights` (part_000 lines 237-277): per-field if/else-if pushes
onto the strengths and weaknesses arrays, in fixed field order.  The two
text arguments are accepted and ignored, as in the source. -/
def generateInsights (breakdown : Breakdown) (resumeText jobDescription : String) :
    List String × List String :=
  let strengths :=
    (if 70 ≤ breakdown.keywordMatch
       then ["Excellent keyword alignment with job description"] else []) ++
    (if 80 ≤ breakdown.formatting
       then ["Well-structured resume with all essential sections"] else []) ++
    (if 75 ≤ breakdown.readability
       then ["Clear and professional writing style with strong action verbs"] else []) ++
    (if 80 ≤ breakdown.«structure»
       then ["ATS-friendly format without complex tables or special characters"] else []) ++
    (if 70 ≤ breakdown.keywordBalance
       then ["Optimal keyword density and resume length"] else [])
  let weaknesses :=
    (if 70 ≤ breakdown.keywordMatch then []
     else if breakdown.keywordMatch < 50
       then ["Low keyword match - add more relevant skills and terms from job description"]
       else []) ++
    (if 80 ≤ breakdown.formatting then []
     else if breakdown.formatting < 60
       then ["Missing key sections like Summary, Experience, or Skills"] else []) ++
    (if 75 ≤ breakdown.readability then []
     else if breakdown.readability < 60
       then ["Improve sentence structure and use more action verbs"] else []) ++
    (if 80 ≤ breakdown.«structure» then []
     else if breakdown.«structure» < 60
       then ["Avoid using tables, graphics, or special symbols"] else []) ++
    (if 70 ≤ breakdown.keywordBalance then []
     else if breakdown.keywordBalance < 50
       then ["Adjust keyword usage - either too sparse or stuffed"] else [])
  (strengths, weaknesses)

/-! ## aiSuggestions.js: keyword extraction and rule-based suggestions -/

/-- `extractImportantKeywords` (aiSuggestions lines 271-298): a `Set` receives
the expanded tech-vocabulary matches (lower-cased, trimmed), then each
`compromise` noun (lower-cased, trimmed) that has length > 3 and no whole-word
stop-word occurrence, then the soft-skill matches; the result is capped at the
first 30 entries. -/
def extractImportantKeywords (o : Oracle) (text : String) : List String :=
  (dedupFirst
    ((o.techMatchesAI text).map (fun s => trimStr (toLowerStr s)) ++
     ((o.nouns text).map (fun n => trimStr (toLowerStr n))).filter
       (fun w => decide (3 < strLen w) && !containsStopWord w) ++
     (o.softMatches text).map (fun s => trimStr (toLowerStr s)))).take 30

/-- `generateRuleBasedSuggestions` (aiSuggestions lines 70-246): a fixed
ordered sequence of rules, each appending zero or more suggestion objects. -/
def generateRuleBasedSuggestions (o : Oracle) (resumeText jobDescription : String)
    (breakdown : Breakdown) : List Suggestion :=
  let jdKeywords := extractImportantKeywords o jobDescription
  let resumeLower := toLowerStr resumeText
  -- 1. Missing keywords
  let missingKeywords :=
    (jdKeywords.filter (fun k => !hasSubstrStr resumeLower (toLowerStr k))).take 5
  let r1 : List Suggestion :=
    if 0 < missingKeywords.length then
      [{ category := "Keywords"
         message := "Add these important keywords from job description: " ++
                    joinSep ", " missingKeywords
         priority := "high" }]
    else []
  -- 2. Formatting issues
  let r2 : List Suggestion :=
    if breakdown.formatting < 70 then
      (if !(hasCI resumeText "experience" || hasCI resumeText "work history") then
        [{ category := "Structure"
           message := "Add a clear \"Work Experience\" or \"Professional Experience\" section"
           priority := "high" }] else []) ++
      (if !(hasCI resumeText "skills" || hasCI resumeText "technical skills") then
        [{ category := "Structure"
           message := "Include a dedicated \"Skills\" section with relevant technical skills"
           priority := "high" }] else []) ++
      (if !(hasCI resumeText "education") then
        [{ category := "Structure"
           message := "Add an \"Education\" section with your academic qualifications"
           priority := "medium" }] else [])
    else []
  -- 3. Action verbs
  let actionVerbs := countWholeWordOf suggestionActionVerbs resumeText
  let r3 : List Suggestion :=
    if actionVerbs < 3 then
      [{ category := "Content"
         message := "Start bullet points with strong action verbs (e.g., \"Developed\", \"Led\", \"Implemented\", \"Optimized\")"
         priority := "medium" }]
    else []
  -- 4. Quantifiable achievements
  let r4 : List Suggestion :=
    if o.numbersCount resumeText < 2 then
      [{ category := "Content"
         message := "Add quantifiable achievements (e.g., \"Increased sales by 25%\", \"Reduced load time by 40%\")"
         priority := "high" }]
    else []
  -- 5. ATS-unfriendly elements
  let r5 : List Suggestion :=
    if resumeText.toList.any isGlyph then
      [{ category := "Formatting"
         message := "Remove special characters, bullets, and symbols - use simple text only"
         priority := "high" }]
    else []
  -- 6. Personal pronouns
  let pronouns := countWholeWordOf pronounWords resumeText
  let r6 : List Suggestion :=
    if 5 < pronouns then
      [{ category := "Writing Style"
         message := "Avoid personal pronouns (I, me, my) - use direct action statements instead"
         priority := "medium" }]
    else []
  -- 7. Resume length
  let wordCount := jsWsSplitLen resumeText
  let r7 : List Suggestion :=
    if wordCount < 250 then
      [{ category := "Content"
         message := "Resume is too short - aim for 400-700 words to showcase your experience"
         priority := "medium" }]
    else if 1000 < wordCount then
      [{ category := "Content"
         message := "Resume is too long - condense to 1-2 pages (500-800 words) for better readability"
         priority := "medium" }]
    else []
  -- 8. Section headers
  let r8 : List Suggestion :=
    if !(hasCI resumeText "summary" || hasCI resumeText "objective") then
      [{ category := "Structure"
         message := "Add a Professional Summary at the top highlighting your key qualifications"
         priority := "medium" }]
    else []
  -- 9. Contact information
  let r9 : List Suggestion :=
    (if !(o.hasEmail resumeText) then
      [{ category := "Contact"
         message := "Ensure your email address is clearly visible at the top"
         priority := "high" }] else []) ++
    (if !(o.hasPhone resumeText) then
      [{ category := "Contact"
         message := "Include a phone number in your contact information"
         priority := "medium" }] else [])
  -- 10. Keyword density
  let r10 : List Suggestion :=
    if breakdown.keywordBalance < 50 then
      [{ category := "Keywords"
         message := "Maintain 1-3% keyword density - naturally incorporate job-related terms throughout"
         priority := "medium" }]
    else []
  -- 11. Specific skill recommendations
  let jdLower := toLowerStr jobDescription
  let r11 : List Suggestion :=
    (if hasSubstrStr jdLower "react" && !hasSubstrStr resumeLower "react" then
      [{ category := "Skills"
         message := "Job requires React - add this skill if you have experience with it"
         priority := "high" }] else []) ++
    (if hasSubstrStr jdLower "python" && !hasSubstrStr resumeLower "python" then
      [{ category := "Skills"
         message := "Job requires Python - add this skill if you have experience with it"
         priority := "high" }] else []) ++
    (if hasSubstrStr jdLower "aws" && !hasSubstrStr resumeLower "aws" then
      [{ category := "Skills"
         message := "Job requires AWS - add cloud experience if you have it"
         priority := "high" }] else [])
  -- 12. Certification recommendations
  let r12 : List Suggestion :=
    if hasSubstrStr jdLower "certified" && !hasSubstrStr resumeLower "certification" then
      [{ category := "Certifications"
         message := "Add relevant certifications if you have any"
         priority := "low" }]
    else []
  r1 ++ r2 ++ r3 ++ r4 ++ r5 ++ r6 ++ r7 ++ r8 ++ r9 ++ r10 ++ r11 ++ r12

/-- `generateAISuggestions` (aiSuggestions lines 41-67): the rule-based list
(the optional AI path is commented out in the source and its `catch` cannot
trigger on the pure rule path), truncated with `slice(0, 10)`. -/
def generateAISuggestions (o : Oracle) (resumeText jobDescription : String)
    (breakdown : Breakdown) : List Suggestion :=
  (generateRuleBasedSuggestions o resumeText jobDescription breakdown).take 10

/-! ## Concrete oracle instances (used in witnesses and counterexamples) -/

/-- An oracle all of whose external matchers return nothing — the behaviour of
the real externals on texts in which they find no match (in particular on the
empty string: `compromise("")` has no nouns and none of the fixed regexes can
match `""`). -/
def emptyOracle : Oracle :=
  { nouns := fun _ => [], techMatches := fun _ => [], techMatchesAI := fun _ => [],
    softMatches := fun _ => [], dateCount := fun _ => 0, numbersCount := fun _ => 0,
    occCount := fun _ _ => 0, hasEmail := fun _ => false, hasPhone := fun _ => false }

/-- An oracle whose noun recognizer reports the fixed noun list `ns` on every
text, all other externals finding nothing. -/
def nounOracle (ns : List String) : Oracle :=
  { emptyOracle with nouns := fun _ => ns }

/-- An oracle whose noun recognizer reports `"alpha"` on the text `"jd"` and
`"beta"` elsewhere (gives disjoint keyword sets for the two inputs). -/
def disjointOracle : Oracle :=
  { emptyOracle with nouns := fun t => if t = "jd" then ["alpha"] else ["beta"] }

/-- An oracle for exercising the suggestion rules: the expanded tech-skill
vocabulary matcher reports `"react"`, everything else finds nothing. -/
def suggestionOracle : Oracle :=
  { emptyOracle with techMatchesAI := fun _ => ["react"] }

/-! ## Spec-side restatements (for refinement comparison) -/

/-- Spec-side restatement of the §4.8 insight threshold table: one strength
string per field exactly when the field is at or above its high threshold
(70 / 80 / 75 / 80 / 70), in field order. -/
def specStrengths (b : Breakdown) : List String :=
  (if 70 ≤ b.keywordMatch
     then ["Excellent keyword alignment with job description"] else []) ++
  (if 80 ≤ b.formatting
     then ["Well-structured resume with all essential sections"] else []) ++
  (if 75 ≤ b.readability
     then ["Clear and professional writing style with strong action verbs"] else []) ++
  (if 80 ≤ b.«structure»
     then ["ATS-friendly format without complex tables or special characters"] else []) ++
  (if 70 ≤ b.keywordBalance
     then ["Optimal keyword density and resume length"] else [])

/-- Spec-side restatement of the §4.8 insight threshold table: one weakness
string per field exactly when the field is strictly below its low threshold
(50 / 60 / 60 / 60 / 50), in field order. -/
def specWeaknesses (b : Breakdown) : List String :=
  (if b.keywordMatch < 50
     then ["Low keyword match - add more relevant skills and terms from job description"]
     else []) ++
  (if b.formatting < 60
     then ["Missing key sections like Summary, Experience, or Skills"] else []) ++
  (if b.readability < 60
     then ["Improve sentence structure and use more action verbs"] else []) ++
  (if b.«structure» < 60
     then ["Avoid using tables, graphics, or special symbols"] else []) ++
  (if b.keywordBalance < 50
     then ["Adjust keyword usage - either too sparse or stuffed"] else [])

/-! ## Helper lemmas -/

lemma mem_dedupAux (a : String) :
    ∀ (l seen : List String), a ∈ dedupAux l seen ↔ a ∈ l ∧ a ∉ seen := by
  intro l
  induction l with
  | nil => intro seen; simp [dedupAux]
  | cons x xs ih =>
    intro seen
    simp only [dedupAux]
    split_ifs with hx
    · rw [ih]
      simp only [List.mem_cons]
      constructor
      · rintro ⟨h1, h2⟩
        exact ⟨Or.inr h1, h2⟩
      · rintro ⟨h1 | h1, h2⟩
        · exact absurd (h1 ▸ hx) h2
        · exact ⟨h1, h2⟩
    · simp only [List.mem_cons, ih, List.mem_cons]
      by_cases hax : a = x
      · subst hax; simp [hx]
      · simp [hax]

lemma mem_dedupFirst (a : String) (l : List String) :
    a ∈ dedupFirst l ↔ a ∈ l := by
  simp [dedupFirst, mem_dedupAux]

lemma jsWsSplitLen_pos (s : String) : 1 ≤ jsWsSplitLen s := by
  unfold jsWsSplitLen jsSplitWs
  split
  · norm_num
  · simp only [List.length_cons]
    omega

lemma jsRound_bounds {q : ℚ} (h0 : 0 ≤ q) (h1 : q ≤ 100) :
    0 ≤ jsRound q ∧ jsRound q ≤ 100 := by
  unfold jsRound
  constructor
  · exact Int.le_floor.mpr (by push_cast; linarith)
  · have h : (⌊q + 1/2⌋ : ℤ) < 101 := Int.floor_lt.mpr (by push_cast; linarith)
    omega

lemma jsRound_mono {p q : ℚ} (h : p ≤ q) : jsRound p ≤ jsRound q := by
  unfold jsRound
  exact Int.floor_le_floor (by linarith)

lemma calculateKeywordMatch_bounds (o : Oracle) (r j : String) :
    0 ≤ calculateKeywordMatch o r j ∧ calculateKeywordMatch o r j ≤ 100 := by
  simp only [calculateKeywordMatch]
  refine ⟨le_min (by norm_num) ?_, min_le_left _ _⟩
  split_ifs
  · positivity
  · norm_num

lemma calculateFormattingScore_bounds (r : String) :
    0 ≤ calculateFormattingScore r ∧ calculateFormattingScore r ≤ 100 := by
  simp only [calculateFormattingScore]
  refine ⟨le_min (by norm_num) ?_, min_le_left _ _⟩
  split_ifs <;> norm_num

lemma calculateReadabilityScore_bounds (r : String) :
    0 ≤ calculateReadabilityScore r ∧ calculateReadabilityScore r ≤ 100 := by
  simp only [calculateReadabilityScore]
  exact ⟨le_max_left _ _, max_le (by norm_num) (min_le_left _ _)⟩

lemma calculateStructureScore_bounds (o : Oracle) (r : String) :
    0 ≤ calculateStructureScore o r ∧ calculateStructureScore o r ≤ 100 := by
  simp only [calculateStructureScore]
  exact ⟨le_max_left _ _, max_le (by norm_num) (min_le_left _ _)⟩

lemma calculateStructureScore_ge_50 (o : Oracle) (r : String) :
    50 ≤ calculateStructureScore o r := by
  simp only [calculateStructureScore]
  split_ifs <;> norm_num [min_def, max_def]

lemma band_reorder (d : ℚ) :
    (if d < 1 then (50 : ℚ) else if d > 5 then 40
     else if 1 ≤ d ∧ d ≤ 3 then 100 else 70) =
    (if d < 1 then (50 : ℚ) else if 1 ≤ d ∧ d ≤ 3 then 100
     else if d > 5 then 40 else 70) := by
  by_cases h1 : d < 1
  · simp [h1]
  · by_cases h3 : 1 ≤ d ∧ d ≤ 3
    · have h5 : ¬d > 5 := by
        push_neg
        linarith [h3.2]
      simp [h1, h3, h5]
    · simp [h1, h3]

lemma calculateBalanceScore_bounds (o : Oracle) (r j : String) :
    0 ≤ calculateBalanceScore o r j ∧ calculateBalanceScore o r j ≤ 100 := by
  simp only [calculateBalanceScore]
  refine ⟨le_max_left _ _, max_le (by norm_num) ?_⟩
  split_ifs <;> norm_num

/-! ## Claim theorems -/

/-- C1: `calculateATSScore` never throws — modelled with the sub-score
computations as `Except` values, if any of the five sub-score computations
fails, the try/catch returns the fully-zeroed `ScoreResult` (totalScore 0 and
every breakdown field 0); the result is always either the all-zero result or
the full aggregation of five successful sub-scores, never a partially
populated breakdown.  The pure path (`calculateATSScore`, a total function on
any pair of input strings) coincides with the all-successful case. -/
theorem ats_score_degrades_to_zero :
    (∀ k f r s b : Except Unit ℚ,
      ((k = .error () ∨ f = .error () ∨ r = .error () ∨ s = .error () ∨ b = .error ()) →
        calculateATSScoreE k f r s b = zeroScoreResult) ∧
      (calculateATSScoreE k f r s b = zeroScoreResult ∨
        ∃ kv fv rv sv bv, k = .ok kv ∧ f = .ok fv ∧ r = .ok rv ∧ s = .ok sv ∧
          b = .ok bv ∧ calculateATSScoreE k f r s b = aggregateScores kv fv rv sv bv)) ∧
    (∀ (o : Oracle) (resumeText jobDescription : String),
      calculateATSScore o resumeText jobDescription =
        calculateATSScoreE
          (.ok (calculateKeywordMatch o resumeText jobDescription))
          (.ok (calculateFormattingScore resumeText))
          (.ok (calculateReadabilityScore resumeText))
          (.ok (calculateStructureScore o resumeText))
          (.ok (calculateBalanceScore o resumeText jobDescription))) := by
  constructor
  · intro k f r s b
    constructor
    · intro h
      cases k <;> cases f <;> cases r <;> cases s <;> cases b <;>
        simp_all [calculateATSScoreE]
    · cases k <;> cases f <;> cases r <;> cases s <;> cases b <;>
        first
          | (left; rfl)
          | (right; exact ⟨_, _, _, _, _, rfl, rfl, rfl, rfl, rfl, rfl⟩)
  · intro o resumeText jobDescription
    rfl

/-- Witness for C1: with the keyword-match computation failing and the other
four succeeding, the result is the all-zero `ScoreResult`. -/
theorem ats_score_degrades_to_zero_witness :
    calculateATSScoreE (.error ()) (.ok 80) (.ok 90) (.ok 70) (.ok 60) =
      zeroScoreResult :=
  (ats_score_degrades_to_zero.1 _ _ _ _ _).1 (Or.inl rfl)

/-- C2: for every oracle behaviour and every pair of input strings, the
total score and all five breakdown fields of `calculateATSScore` are integers
in [0, 100]. -/
theorem ats_score_breakdown_in_range (o : Oracle) (resumeText jobDescription : String) :
    (0 ≤ (calculateATSScore o resumeText jobDescription).totalScore ∧
      (calculateATSScore o resumeText jobDescription).totalScore ≤ 100) ∧
    (0 ≤ (calculateATSScore o resumeText jobDescription).breakdown.keywordMatch ∧
      (calculateATSScore o resumeText jobDescription).breakdown.keywordMatch ≤ 100) ∧
    (0 ≤ (calculateATSScore o resumeText jobDescription).breakdown.formatting ∧
      (calculateATSScore o resumeText jobDescription).breakdown.formatting ≤ 100) ∧
    (0 ≤ (calculateATSScore o resumeText jobDescription).breakdown.readability ∧
      (calculateATSScore o resumeText jobDescription).breakdown.readability ≤ 100) ∧
    (0 ≤ (calculateATSScore o resumeText jobDescription).breakdown.«structure» ∧
      (calculateATSScore o resumeText jobDescription).breakdown.«structure» ≤ 100) ∧
    (0 ≤ (calculateATSScore o resumeText jobDescription).breakdown.keywordBalance ∧
      (calculateATSScore o resumeText jobDescription).breakdown.keywordBalance ≤ 100) := by
  obtain ⟨hk0, hk1⟩ := calculateKeywordMatch_bounds o resumeText jobDescription
  obtain ⟨hf0, hf1⟩ := calculateFormattingScore_bounds resumeText
  obtain ⟨hr0, hr1⟩ := calculateReadabilityScore_bounds resumeText
  obtain ⟨hs0, hs1⟩ := calculateStructureScore_bounds o resumeText
  obtain ⟨hb0, hb1⟩ := calculateBalanceScore_bounds o resumeText jobDescription
  simp only [calculateATSScore, aggregateScores]
  refine ⟨⟨le_min (by norm_num) (le_max_left _ _), min_le_left _ _⟩,
    jsRound_bounds hk0 hk1, jsRound_bounds hf0 hf1, jsRound_bounds hr0 hr1,
    jsRound_bounds hs0 hs1, jsRound_bounds hb0 hb1⟩

/-- C3: the total score is the weighted sum of the five unrounded sub-scores
(weights 0.40 / 0.20 / 0.15 / 0.15 / 0.10), rounded and then clamped to
[0, 100], while every reported breakdown field is its sub-score independently
rounded. -/
theorem ats_total_weighted_formula (o : Oracle) (resumeText jobDescription : String) :
    (calculateATSScore o resumeText jobDescription).totalScore =
      min 100 (max 0 (jsRound
        (calculateKeywordMatch o resumeText jobDescription * (2/5) +
         calculateFormattingScore resumeText * (1/5) +
         calculateReadabilityScore resumeText * (3/20) +
         calculateStructureScore o resumeText * (3/20) +
         calculateBalanceScore o resumeText jobDescription * (1/10)))) ∧
    (calculateATSScore o resumeText jobDescription).breakdown =
      { keywordMatch := jsRound (calculateKeywordMatch o resumeText jobDescription)
        formatting := jsRound (calculateFormattingScore resumeText)
        readability := jsRound (calculateReadabilityScore resumeText)
        «structure» := jsRound (calculateStructureScore o resumeText)
        keywordBalance := jsRound (calculateBalanceScore o resumeText jobDescription) } :=
  ⟨rfl, rfl⟩

/-- C4 (amended): the keyword-match sub-score is `100 * matchedCount /
|jdKeywords|` (0 when the job-description keyword set is empty), a keyword
matching exactly when it occurs verbatim in the résumé keyword set; the score
is 0 whenever the two extracted keyword sets are disjoint, and 100 whenever
the job-description keyword set is nonempty and the résumé keyword set is a
superset of it.  (As originally stated — 100 for every superset — the claim
fails when the job-description keyword set is empty; see the
counterexample.) -/
theorem keyword_match_formula (o : Oracle) (resumeText jobDescription : String) :
    (calculateKeywordMatch o resumeText jobDescription =
      if (extractKeywords o jobDescription).length = 0 then 0
      else 100 * ((extractKeywords o jobDescription).countP
              (fun k => decide (k ∈ extractKeywords o resumeText)) : ℚ) /
           ((extractKeywords o jobDescription).length : ℚ)) ∧
    ((∀ k ∈ extractKeywords o jobDescription, k ∉ extractKeywords o resumeText) →
      calculateKeywordMatch o resumeText jobDescription = 0) ∧
    (extractKeywords o jobDescription ≠ [] →
      (∀ k ∈ extractKeywords o jobDescription, k ∈ extractKeywords o resumeText) →
      calculateKeywordMatch o resumeText jobDescription = 100) := by
  have hm : (extractKeywords o jobDescription).countP
      (fun k => decide (k ∈ extractKeywords o resumeText)) ≤
      (extractKeywords o jobDescription).length := List.countP_le_length _
  have hformula : calculateKeywordMatch o resumeText jobDescription =
      if (extractKeywords o jobDescription).length = 0 then 0
      else 100 * ((extractKeywords o jobDescription).countP
              (fun k => decide (k ∈ extractKeywords o resumeText)) : ℚ) /
           ((extractKeywords o jobDescription).length : ℚ) := by
    simp only [calculateKeywordMatch]
    rcases Nat.eq_zero_or_pos (extractKeywords o jobDescription).length with h0 | h0
    · simp [h0]
    · have hne : (extractKeywords o jobDescription).length ≠ 0 := Nat.pos_iff_ne_zero.mp h0
      rw [if_pos h0, if_neg hne]
      have htQ : (0 : ℚ) < ((extractKeywords o jobDescription).length : ℚ) := by
        exact_mod_cast h0
      have hle : (((extractKeywords o jobDescription).countP
          (fun k => decide (k ∈ extractKeywords o resumeText)) : ℚ) /
            ((extractKeywords o jobDescription).length : ℚ)) * 100 ≤ 100 := by
        have hmQ : ((extractKeywords o jobDescription).countP
            (fun k => decide (k ∈ extractKeywords o resumeText)) : ℚ) ≤
            ((extractKeywords o jobDescription).length : ℚ) := by exact_mod_cast hm
        have := (div_le_one htQ).mpr hmQ
        linarith
      rw [min_eq_right hle]
      ring
  refine ⟨hformula, ?_, ?_⟩
  · intro hdisj
    have hz : (extractKeywords o jobDescription).countP
        (fun k => decide (k ∈ extractKeywords o resumeText)) = 0 := by
      apply List.countP_eq_zero.mpr
      intro k hk
      simpa using hdisj k hk
    rw [hformula, hz]
    split_ifs <;> norm_num
  · intro hne hsup
    have hlen : (extractKeywords o jobDescription).length ≠ 0 :=
      fun h => hne (List.eq_nil_of_length_eq_zero h)
    have hall : (extractKeywords o jobDescription).countP
        (fun k => decide (k ∈ extractKeywords o resumeText)) =
        (extractKeywords o jobDescription).length := by
      apply List.countP_eq_length.mpr
      intro k hk
      simpa using hsup k hk
    rw [hformula, if_neg hlen, hall]
    have htQ : ((extractKeywords o jobDescription).length : ℚ) ≠ 0 := by
      exact_mod_cast hlen
    field_simp

/-- Counterexample to C4 as stated: with both input texts empty, every
external matcher finds nothing (recorded by `emptyOracle`), so the
job-description keyword set is empty; the résumé keyword set is then trivially
a superset of it, yet the score is 0, not 100. -/
theorem keyword_match_superset_counterexample :
    (∀ k ∈ extractKeywords emptyOracle "", k ∈ extractKeywords emptyOracle "") ∧
    calculateKeywordMatch emptyOracle "" "" = 0 ∧ (0 : ℚ) ≠ 100 := by
  refine ⟨fun k hk => hk, ?_, by norm_num⟩
  have h : extractKeywords emptyOracle "" = [] := by decide
  simp [calculateKeywordMatch, h]

/-- Witness for C4: a disjoint instance scores 0 and a nonempty-superset
instance scores 100. -/
theorem keyword_match_formula_witness :
    calculateKeywordMatch disjointOracle "resume" "jd" = 0 ∧
    calculateKeywordMatch (nounOracle ["pytorch"]) "a" "b" = 100 := by
  constructor
  · exact (keyword_match_formula disjointOracle "resume" "jd").2.1 (by decide)
  · exact (keyword_match_formula (nounOracle ["pytorch"]) "a" "b").2.2
      (by decide) (by decide)

/-- C5 (amended): the keyword extractor used by the sub-score calculators
(`extractKeywords`) applies no length or stop-word filtering — every noun
reported by the recognizer lands (lower-cased) in its result.  The length > 3
and stop-word filtering of generic noun tokens exists only in the suggestion
generator's extractor (`extractImportantKeywords`): every element of its
result is a tech-vocabulary match, a soft-skill match, or a noun token of
length strictly greater than 3 with no whole-word stop-word occurrence. -/
theorem keyword_filter_only_in_suggestion_extractor :
    (∀ (o : Oracle) (text n : String), n ∈ o.nouns text →
      toLowerStr n ∈ extractKeywords o text) ∧
    (∀ (o : Oracle) (text k : String), k ∈ extractImportantKeywords o text →
      k ∈ (o.techMatchesAI text).map (fun s => trimStr (toLowerStr s)) ∨
      k ∈ (o.softMatches text).map (fun s => trimStr (toLowerStr s)) ∨
      (3 < strLen k ∧ containsStopWord k = false)) := by
  constructor
  · intro o text n hn
    unfold extractKeywords
    exact (mem_dedupFirst _ _).mpr
      (List.mem_append_left _ (List.mem_map_of_mem _ hn))
  · intro o text k hk
    unfold extractImportantKeywords at hk
    have hk2 := (mem_dedupFirst _ _).mp (List.mem_of_mem_take hk)
    rcases List.mem_append.mp hk2 with hk3 | hsoft
    · rcases List.mem_append.mp hk3 with htech | hnoun
      · exact Or.inl htech
      · right; right
        obtain ⟨-, hpred⟩ := List.mem_filter.mp hnoun
        simpa [Bool.and_eq_true, decide_eq_true_eq, Bool.not_eq_true'] using hpred
    · exact Or.inr (Or.inl hsoft)

/-- Counterexample to C5 as stated: `extractKeywords` (the extractor the
sub-score calculators use) keeps the stop-word noun token "that" — a generic,
non-vocabulary token (the tech matcher reports nothing here) that the claim
says must have been discarded. -/
theorem extract_keywords_stopword_counterexample :
    "that" ∈ extractKeywords (nounOracle ["that"]) "that" ∧
    containsStopWord "that" = true ∧
    (nounOracle ["that"]).techMatches (toLowerStr "that") = [] := by
  exact ⟨by decide, by decide, rfl⟩

/-- Witness for C5: a noun reported on some text appears unfiltered in
`extractKeywords`; a concrete member of `extractImportantKeywords` satisfies
the filter disjunction. -/
theorem keyword_filter_witness :
    toLowerStr "Team" ∈ extractKeywords (nounOracle ["Team"]) "x" ∧
    ("react" ∈ (suggestionOracle.techMatchesAI "x").map
        (fun s => trimStr (toLowerStr s)) ∨
     "react" ∈ (suggestionOracle.softMatches "x").map
        (fun s => trimStr (toLowerStr s)) ∨
     (3 < strLen "react" ∧ containsStopWord "react" = false)) := by
  constructor
  · exact keyword_filter_only_in_suggestion_extractor.1
      (nounOracle ["Team"]) "x" "Team" (by decide)
  · exact keyword_filter_only_in_suggestion_extractor.2
      suggestionOracle "x" "react" (by decide)

/-- C6: the suggestion generator always returns the first 10 suggestions of
the rule-based list in rule-evaluation order (a plain `take 10`, with no
re-sorting by priority), hence at most 10 suggestions; a concrete input
triggering 17 rule matches shows the cap binding. -/
theorem suggestions_truncated_to_ten :
    (∀ (o : Oracle) (resumeText jobDescription : String) (breakdown : Breakdown),
      generateAISuggestions o resumeText jobDescription breakdown =
        (generateRuleBasedSuggestions o resumeText jobDescription breakdown).take 10 ∧
      (generateAISuggestions o resumeText jobDescription breakdown).length ≤ 10) ∧
    (generateRuleBasedSuggestions suggestionOracle "★ i i i i i i"
        "react python aws certified" ⟨0, 0, 0, 0, 0⟩).length = 17 ∧
    generateAISuggestions suggestionOracle "★ i i i i i i"
        "react python aws certified" ⟨0, 0, 0, 0, 0⟩ =
      (generateRuleBasedSuggestions suggestionOracle "★ i i i i i i"
        "react python aws certified" ⟨0, 0, 0, 0, 0⟩).take 10 := by
  refine ⟨fun o r j bd => ⟨rfl, ?_⟩, by decide, rfl⟩
  rw [generateAISuggestions, List.length_take]
  exact min_le_left _ _

/-- C7: the keyword-balance sub-score is the density-band base score
(density < 1 → 50; 1 ≤ density ≤ 3 → 100; density > 5 → 40; otherwise 70)
minus the length penalty (30 when the word count is below 250, else 20 when
it exceeds 1000), clamped below at 0 with no separate upper clamp. -/
theorem balance_score_bands (o : Oracle) (resumeText jobDescription : String) :
    calculateBalanceScore o resumeText jobDescription =
      max 0 ((if keywordDensity o resumeText jobDescription < 1 then (50 : ℚ)
              else if 1 ≤ keywordDensity o resumeText jobDescription ∧
                      keywordDensity o resumeText jobDescription ≤ 3 then 100
              else if keywordDensity o resumeText jobDescription > 5 then 40
              else 70)
             - (if jsWsSplitLen resumeText < 250 then 30
                else if 1000 < jsWsSplitLen resumeText then 20 else 0)) := by
  simp only [calculateBalanceScore]
  congr 1
  rw [← band_reorder (keywordDensity o resumeText jobDescription)]
  split_ifs <;> ring

/-- C8: the insight generator realizes exactly the threshold table — per
field one strength at or above the high threshold (70/80/75/80/70), one
weakness strictly below the low threshold (50/60/60/60/50), nothing in
between, never both, in fixed field order; a breakdown with every field at
its exact high threshold yields all five strengths and no weaknesses. -/
theorem insights_threshold_mapping :
    (∀ (breakdown : Breakdown) (resumeText jobDescription : String),
      generateInsights breakdown resumeText jobDescription =
        (specStrengths breakdown, specWeaknesses breakdown)) ∧
    generateInsights ⟨70, 80, 75, 80, 70⟩ "" "" =
      (["Excellent keyword alignment with job description",
        "Well-structured resume with all essential sections",
        "Clear and professional writing style with strong action verbs",
        "ATS-friendly format without complex tables or special characters",
        "Optimal keyword density and resume length"], []) := by
  constructor
  · intro bd r j
    have seg : ∀ (x hi lo : ℤ) (w : List String), lo ≤ hi →
        (if hi ≤ x then ([] : List String) else if x < lo then w else []) =
        (if x < lo then w else []) := by
      intro x hi lo w h
      split_ifs <;> first | rfl | omega
    simp only [generateInsights, specStrengths, specWeaknesses]
    rw [seg _ 70 50 _ (by norm_num), seg _ 80 60 _ (by norm_num),
        seg _ 75 60 _ (by norm_num), seg _ 80 60 _ (by norm_num),
        seg _ 70 50 _ (by norm_num)]
  · decide

/-- C9: the ATS-structure sub-score is always at least 50 (the only
deductions from 100 are 30 and 20, so the lower clamp is unreachable); hence
the rounded `structure` breakdown field of a computed result is at least 50,
and a `structure` value of 0 can only come from the degrade-to-zero result. -/
theorem structure_score_at_least_fifty (o : Oracle) (resumeText jobDescription : String) :
    (50 : ℚ) ≤ calculateStructureScore o resumeText ∧
    (50 : ℤ) ≤ (calculateATSScore o resumeText jobDescription).breakdown.«structure» ∧
    zeroScoreResult.breakdown.«structure» = 0 := by
  refine ⟨calculateStructureScore_ge_50 o resumeText, ?_, rfl⟩
  have h := calculateStructureScore_ge_50 o resumeText
  show (50 : ℤ) ≤ jsRound (calculateStructureScore o resumeText)
  calc (50 : ℤ) ≤ jsRound 50 := Int.le_floor.mpr (by norm_num)
    _ ≤ jsRound (calculateStructureScore o resumeText) := jsRound_mono h

/-- C10: splitting any string (including the empty string) on whitespace
yields at least one piece, so the word count is always ≥ 1 and the
division-by-zero guard in the balance score never takes its zero branch: the
keyword density always comes from the division. -/
theorem word_count_positive_density_division :
    (∀ s : String, 1 ≤ jsWsSplitLen s) ∧
    (∀ (o : Oracle) (resumeText jobDescription : String),
      keywordDensity o resumeText jobDescription =
        ((keywordFrequency o resumeText jobDescription : ℚ) /
          (jsWsSplitLen resumeText : ℚ)) * 100) := by
  refine ⟨jsWsSplitLen_pos, ?_⟩
  intro o r j
  have h := jsWsSplitLen_pos r
  simp only [keywordDensity]
  rw [if_pos (by omega : 0 < jsWsSplitLen r)]

end AiRes
